import Mathlib

/-
Verification of the etabs-sap-wrapper repository: a shallow embedding of
`src/etabs_wrapper/results/tables.py`, `src/etabs_wrapper/core/connection.py`
and `src/etabs_wrapper/core/base_client.py`.

The vendor (COM automation) side is modelled as an environment record that
fixes the replies of each vendor call; each embedded wrapper operation
returns its Python result (an `Except` carrying an exception model) together
with the ordered list of vendor calls it issued.  Machine floats produced by
`pandas.to_numeric` are modelled as exact decimal values (integer mantissa
and decimal exponent).
-/

/-- A Python exception value: the class name (kind), the message (`str(e)`),
and, for an exception raised with `raise ... from e`, its cause. -/
inductive PyErr where
  | base (kind : String) (msg : String)
  | wrapped (kind : String) (msg : String) (cause : PyErr)
deriving DecidableEq

/-- The exception's class name. -/
def PyErr.kind : PyErr → String
  | .base k _ => k
  | .wrapped k _ _ => k

/-- The exception's message, what `str(e)` interpolates. -/
def PyErr.msg : PyErr → String
  | .base _ m => m
  | .wrapped _ m _ => m

/-- The `__cause__` of the exception (`raise ... from e`). -/
def PyErr.cause : PyErr → Option PyErr
  | .base _ _ => none
  | .wrapped _ _ c => some c

/-- An exact decimal value `mant / 10 ^ exp`: the model of the numbers that
`pandas.to_numeric` produces when parsing decimal strings. -/
structure Dec where
  mant : ℤ
  exp : ℕ
deriving DecidableEq

/-- The rational value a `Dec` denotes. -/
def Dec.toRat (d : Dec) : ℚ := (d.mant : ℚ) / (10 : ℚ) ^ d.exp

/-- Truncation toward zero, what numpy's `astype(int)` does to a float. -/
def Dec.trunc (d : Dec) : ℤ := d.mant.tdiv ((10 : ℤ) ^ d.exp)

/-- One cell of a result table: the raw string received from the vendor, or a
numeric value produced by the coercion step (`astype(int)` / `astype(float)`). -/
inductive Cell where
  | str (v : String)
  | intv (v : ℤ)
  | fl (v : Dec)
deriving DecidableEq

/-- Value of a digit run, most significant first. -/
def digitsVal (ds : List Char) : ℕ := ds.foldl (fun a c => 10 * a + (c.toNat - 48)) 0

/-- Decimal number body: digits with an optional fractional part ("37", "3.7",
"3.", ".7").  Returns the exact value as a `Dec`. -/
def parseUnsigned (cs : List Char) : Option Dec :=
  let ip := cs.takeWhile Char.isDigit
  let rest := cs.dropWhile Char.isDigit
  match rest with
  | [] => if ip.isEmpty then none else some ⟨(digitsVal ip : ℤ), 0⟩
  | c :: rest2 =>
    if c = '.' then
      let fp := rest2.takeWhile Char.isDigit
      let rest3 := rest2.dropWhile Char.isDigit
      if rest3.isEmpty && !(ip.isEmpty && fp.isEmpty) then
        some ⟨(digitsVal ip : ℤ) * 10 ^ fp.length + (digitsVal fp : ℤ), fp.length⟩
      else none
    else none

/-- Model of the numeric parsing done by `pandas.to_numeric`: an optional sign
followed by decimal digits with an optional fractional part.  A string this
parser rejects is a cell `to_numeric(errors="coerce")` turns into NaN.
(Scientific notation and surrounding whitespace are not modelled.) -/
def parseNum (s : String) : Option Dec :=
  match s.toList with
  | [] => none
  | c :: cs =>
    if c = '-' then (parseUnsigned cs).map (fun d => ⟨-d.mant, d.exp⟩)
    else if c = '+' then parseUnsigned cs
    else parseUnsigned (c :: cs)

/-- `pandas.to_numeric(errors="coerce")` on one cell: numeric cells pass
through, strings are parsed, a failed parse is NaN (`none`). -/
def Cell.toNumeric : Cell → Option Dec
  | .str v => parseNum v
  | .intv n => some ⟨n, 0⟩
  | .fl d => some d

/-- `pd.to_numeric(col, errors="coerce").fillna(0).astype(float)` on one cell:
a failed parse becomes NaN, `fillna(0)` turns NaN into zero. -/
def coerceFloat (c : Cell) : Cell := Cell.fl ((Cell.toNumeric c).getD ⟨0, 0⟩)

/-- `pd.to_numeric(col, errors="coerce").fillna(0).astype(int)` on one cell:
as `coerceFloat`, then truncation toward zero to an integer. -/
def coerceInt (c : Cell) : Cell := Cell.intv (((Cell.toNumeric c).getD ⟨0, 0⟩).trunc)

/-- The pandas DataFrame as this code uses it: named columns and row-major
rows.  `pd.DataFrame()` is `⟨[], []⟩`. -/
structure DataFrame where
  columns : List String
  rows : List (List Cell)
deriving DecidableEq

/-- Index of the first column with this name (`df.columns` lookup). -/
def colIdx (name : String) : List String → Option ℕ
  | [] => none
  | c :: cs => if c = name then some 0 else (colIdx name cs).map (· + 1)

/-- Replace the element at an index, identity beyond the end. -/
def modifyAt (f : Cell → Cell) : ℕ → List Cell → List Cell
  | _, [] => []
  | 0, c :: cs => f c :: cs
  | n + 1, c :: cs => c :: modifyAt f n cs

/-- The column assignment `df[name] = f(df[name])`: apply `f` to every cell of
the named column, leave every other cell alone. -/
def mapColumn (df : DataFrame) (name : String) (f : Cell → Cell) : DataFrame :=
  match colIdx name df.columns with
  | none => df
  | some j => ⟨df.columns, df.rows.map (modifyAt f j)⟩

/-- The cell of row `i` in the named column, when both exist. -/
def getCell (df : DataFrame) (i : ℕ) (name : String) : Option Cell :=
  match colIdx name df.columns with
  | none => none
  | some j => (df.rows[i]?).bind (fun r => r[j]?)

/-- One vendor (COM) call issued by the wrapper, in the order the code makes
them. -/
inductive VCall where
  | deselectAllCasesAndCombosForOutput
  | setLoadCasesSelectedForDisplay (loadCases : List String)
  | setLoadCombinationsSelectedForDisplay (loadCombinations : List String)
  | getAvailableTables
  | getTableForDisplayArray (tableKey : String) (groupName : String)
  | createHelperObject (progId : String)
  | getObjectCall (progId : String)
  | initializeNewModel
  | openFileVendor (filePath : String)
  | setPresentUnits
deriving DecidableEq

/-- The vendor's reply to `GetTableForDisplayArray` as the code reads it:
`table[2]` the column names, `table[3]` the record count, `table[4]` the flat
row-major data. -/
structure TableResponse where
  cols : List String
  nRows : ℤ
  flat : List String
deriving DecidableEq

/-- Environment fixing the replies of the two table-query vendor calls:
`GetAvailableTables` yields `(NumberTables, TableKeys)` or raises, and
`GetTableForDisplayArray` per (table key, group name) yields a response or
raises. -/
structure TablesEnv where
  availableTables : Except PyErr (ℕ × List String)
  getTable : String → String → Except PyErr TableResponse

/-- Chunk sizes of `np.array_split(l, n)`: the first `len % n` chunks get
`len / n + 1` elements, the rest `len / n`. -/
def splitSizes (len n : ℕ) : List ℕ :=
  (List.range n).map (fun i => if i < len % n then len / n + 1 else len / n)

/-- Cut a list into chunks of the given sizes. -/
def takeChunks {α : Type} : List ℕ → List α → List (List α)
  | [], _ => []
  | k :: ks, l => l.take k :: takeChunks ks (l.drop k)

/-- `np.array_split(l, n)`: split `l` into `n` nearly equal chunks. -/
def arraySplit {α : Type} (l : List α) (n : ℕ) : List (List α) :=
  takeChunks (splitSizes l.length n) l

/-- The `except Exception as e: raise RuntimeError(f"Failed to retrieve table
...: {e}") from e` wrapper at the bottom of `_retrieve_table_data`. -/
def wrapRetrieveErr (table_key : String) (e : PyErr) : PyErr :=
  PyErr.wrapped "RuntimeError"
    ("Failed to retrieve table '" ++ table_key ++ "': " ++ e.msg) e

/-- `TableResults._retrieve_table_data` (tables.py lines 30-68): list the
available tables, fail when none exist or the key is unknown, otherwise fetch
the table, return the empty DataFrame for a non-positive record count, and
otherwise split the flat data into `no_of_rows` rows.  Every exception of the
body is wrapped into the retrieval `RuntimeError`.  Also returns the vendor
calls issued. -/
def retrieve_table_data (env : TablesEnv) (table_key : String) (group_name : String) :
    Except PyErr DataFrame × List VCall :=
  match env.availableTables with
  | .error e => (.error (wrapRetrieveErr table_key e), [VCall.getAvailableTables])
  | .ok (no_tables, table_keys) =>
    if no_tables = 0 then
      (.error (wrapRetrieveErr table_key
        (PyErr.base "RuntimeError" "No tables were found in the open model.")),
       [VCall.getAvailableTables])
    else if table_key ∉ table_keys then
      (.error (wrapRetrieveErr table_key (PyErr.base "RuntimeError"
        ("Failed to retrieve '" ++ table_key ++ "'. It was not found amongst the "
          ++ toString no_tables ++ " tables."))),
       [VCall.getAvailableTables])
    else
      match env.getTable table_key group_name with
      | .error e => (.error (wrapRetrieveErr table_key e),
          [VCall.getAvailableTables, VCall.getTableForDisplayArray table_key group_name])
      | .ok t =>
        if t.nRows ≤ 0 then
          (.ok ⟨[], []⟩,
           [VCall.getAvailableTables, VCall.getTableForDisplayArray table_key group_name])
        else
          (.ok ⟨t.cols, (arraySplit t.flat t.nRows.toNat).map (fun r => r.map Cell.str)⟩,
           [VCall.getAvailableTables, VCall.getTableForDisplayArray table_key group_name])

/-- The selection preamble shared by the four public table methods: an
unconditional `DeselectAllCasesAndCombosForOutput`, then one selection call
per filter that is truthy (neither `None` nor the empty list). -/
def selectionCalls (load_cases load_combinations : Option (List String)) : List VCall :=
  [VCall.deselectAllCasesAndCombosForOutput]
    ++ (match load_cases with
        | some cs => if cs.isEmpty then [] else [VCall.setLoadCasesSelectedForDisplay cs]
        | none => [])
    ++ (match load_combinations with
        | some cs => if cs.isEmpty then [] else [VCall.setLoadCombinationsSelectedForDisplay cs]
        | none => [])

/-- The `for col in [...]: if col in df.columns: df[col] = to_numeric...astype(float)`
loop of the table methods. -/
def coerceFloatCols (df : DataFrame) (cols : List String) : DataFrame :=
  cols.foldl (fun d c => if c ∈ d.columns then mapColumn d c coerceFloat else d) df

/-- The `if name in df.columns: df[name] = to_numeric...astype(int)` guard. -/
def coerceIntCol (df : DataFrame) (name : String) : DataFrame :=
  if name ∈ df.columns then mapColumn df name coerceInt else df

/-- Numeric conversion block of `element_forces_frames` (tables.py 124-128). -/
def framesNumeric (df : DataFrame) : DataFrame :=
  coerceFloatCols (coerceIntCol df "Frame") ["P", "V2", "V3", "T", "M2", "M3"]

/-- Numeric conversion block of `joint_displacements` (tables.py 163-167). -/
def jointsNumeric (df : DataFrame) : DataFrame :=
  coerceFloatCols (coerceIntCol df "Joint") ["U1", "U2", "U3", "R1", "R2", "R3"]

/-- Numeric conversion block of `base_reactions` (tables.py 201-203). -/
def baseReactionsNumeric (df : DataFrame) : DataFrame :=
  coerceFloatCols df ["FX", "FY", "FZ", "MX", "MY", "MZ"]

/-- `TableResults.element_forces_frames`: selection preamble, retrieval of
"Element Forces - Frames", then numeric conversion of the result. -/
def element_forces_frames (env : TablesEnv)
    (load_cases load_combinations : Option (List String)) (group_name : String) :
    Except PyErr DataFrame × List VCall :=
  let r := retrieve_table_data env "Element Forces - Frames" group_name
  (r.1.map framesNumeric, selectionCalls load_cases load_combinations ++ r.2)

/-- `TableResults.joint_displacements`: selection preamble, retrieval of
"Joint Displacements", then numeric conversion of the result. -/
def joint_displacements (env : TablesEnv)
    (load_cases load_combinations : Option (List String)) (group_name : String) :
    Except PyErr DataFrame × List VCall :=
  let r := retrieve_table_data env "Joint Displacements" group_name
  (r.1.map jointsNumeric, selectionCalls load_cases load_combinations ++ r.2)

/-- `TableResults.base_reactions`: selection preamble, retrieval of
"Base Reactions", then numeric conversion of the result. -/
def base_reactions (env : TablesEnv)
    (load_cases load_combinations : Option (List String)) (group_name : String) :
    Except PyErr DataFrame × List VCall :=
  let r := retrieve_table_data env "Base Reactions" group_name
  (r.1.map baseReactionsNumeric, selectionCalls load_cases load_combinations ++ r.2)

/-- `TableResults.element_forces_beams`: selection preamble and retrieval of
"Element Forces - Beams"; this method has no numeric conversion block. -/
def element_forces_beams (env : TablesEnv)
    (load_cases load_combinations : Option (List String)) (group_name : String) :
    Except PyErr DataFrame × List VCall :=
  let r := retrieve_table_data env "Element Forces - Beams" group_name
  (r.1, selectionCalls load_cases load_combinations ++ r.2)

/-- Environment for the connection functions: the outcome of creating the COM
helper object, and the outcome of `helper.GetObject(...)` — an exception, no
object (`None`), or a handle (the opaque `SapModel` reference, a number). -/
structure ConnEnv where
  createHelper : Except PyErr Unit
  getObjectResult : Except PyErr (Option ℕ)

/-- `connect_to_etabs` (connection.py lines 64-93): obtain the helper, ask it
for the running instance, fail with `ETABSConnectionError` when the call
raises or yields `None`, otherwise return the instance's `SapModel`. -/
def connect_to_etabs (env : ConnEnv) : Except PyErr ℕ × List VCall :=
  match env.createHelper with
  | .error e => (.error (PyErr.wrapped "ETABSConnectionError"
      ("Failed to create ETABS helper object: " ++ e.msg) e),
      [VCall.createHelperObject "ETABSv1.Helper"])
  | .ok _ =>
    match env.getObjectResult with
    | .error e => (.error (PyErr.wrapped "ETABSConnectionError"
        ("Could not connect to running ETABS instance. "
          ++ "Please ensure ETABS is running and a model is open.") e),
        [VCall.createHelperObject "ETABSv1.Helper",
         VCall.getObjectCall "CSI.ETABS.API.ETABSObject"])
    | .ok none => (.error (PyErr.base "ETABSConnectionError"
        ("Could not get connection to running ETABS instance. "
          ++ "ETABS may not be running or no model is open.")),
        [VCall.createHelperObject "ETABSv1.Helper",
         VCall.getObjectCall "CSI.ETABS.API.ETABSObject"])
    | .ok (some h) => (.ok h,
        [VCall.createHelperObject "ETABSv1.Helper",
         VCall.getObjectCall "CSI.ETABS.API.ETABSObject"])

/-- `connect_to_sap2000` (connection.py lines 96-125), the SAP2000 twin of
`connect_to_etabs`, raising `SAP2000ConnectionError`. -/
def connect_to_sap2000 (env : ConnEnv) : Except PyErr ℕ × List VCall :=
  match env.createHelper with
  | .error e => (.error (PyErr.wrapped "SAP2000ConnectionError"
      ("Failed to create SAP2000 helper object: " ++ e.msg) e),
      [VCall.createHelperObject "SAP2000v1.Helper"])
  | .ok _ =>
    match env.getObjectResult with
    | .error e => (.error (PyErr.wrapped "SAP2000ConnectionError"
        ("Could not connect to running SAP2000 instance. "
          ++ "Please ensure SAP2000 is running and a model is open.") e),
        [VCall.createHelperObject "SAP2000v1.Helper",
         VCall.getObjectCall "CSI.SAP2000.API.SapObject"])
    | .ok none => (.error (PyErr.base "SAP2000ConnectionError"
        ("Could not get connection to running SAP2000 instance. "
          ++ "SAP2000 may not be running or no model is open.")),
        [VCall.createHelperObject "SAP2000v1.Helper",
         VCall.getObjectCall "CSI.SAP2000.API.SapObject"])
    | .ok (some h) => (.ok h,
        [VCall.createHelperObject "SAP2000v1.Helper",
         VCall.getObjectCall "CSI.SAP2000.API.SapObject"])

/-- Environment for `BaseCSIClient` file operations: the integer return codes
of the three vendor calls `open_file` makes (units fixed to the method's
default). -/
structure FileEnv where
  initializeNewModelRet : ℤ
  openFileRet : String → ℤ
  setPresentUnitsRet : ℤ

/-- `BaseCSIClient.new_file` (base_client.py lines 85-96). -/
def new_file (env : FileEnv) : Bool × List VCall :=
  (if env.initializeNewModelRet = 0 then true else false, [VCall.initializeNewModel])

/-- `BaseCSIClient.open_file` (base_client.py lines 98-120): `new_file()`
first (its boolean result is ignored), then `File.OpenFile`, raising a
`RuntimeError` naming the path and the code on a nonzero return, then
`SetPresentUnits` with the same check, and finally `return True`. -/
def open_file (env : FileEnv) (file_path : String) : Except PyErr Bool × List VCall :=
  let ret1 := env.openFileRet file_path
  if ret1 ≠ 0 then
    (.error (PyErr.base "RuntimeError"
      ("Failed to open file '" ++ file_path ++ "'. Error code: " ++ toString ret1)),
     [VCall.initializeNewModel, VCall.openFileVendor file_path])
  else
    let ret2 := env.setPresentUnitsRet
    if ret2 ≠ 0 then
      (.error (PyErr.base "RuntimeError"
        ("Failed to set units for file '" ++ file_path ++ "'. Error code: " ++ toString ret2)),
       [VCall.initializeNewModel, VCall.openFileVendor file_path, VCall.setPresentUnits])
    else
      (.ok true,
       [VCall.initializeNewModel, VCall.openFileVendor file_path, VCall.setPresentUnits])

/-- Is a vendor call one that changes the load-case/combination selection
state (the deselect-all and the two selected-for-display setters)? -/
def selectionMutating : VCall → Bool
  | VCall.deselectAllCasesAndCombosForOutput => true
  | VCall.setLoadCasesSelectedForDisplay _ => true
  | VCall.setLoadCombinationsSelectedForDisplay _ => true
  | _ => false

/-- Is a vendor call the `helper.GetObject` attempt? -/
def isGetObject : VCall → Bool
  | VCall.getObjectCall _ => true
  | _ => false

/-- Is a vendor call the `GetTableForDisplayArray` request? -/
def isGetTable : VCall → Bool
  | VCall.getTableForDisplayArray _ _ => true
  | _ => false

/-- Substring test on char lists (used to state what an error message
contains). -/
def subAux (pat : List Char) : List Char → Bool
  | [] => pat.isEmpty
  | c :: cs => List.isPrefixOf pat (c :: cs) || subAux pat cs

/-- Does the string contain the given substring? -/
def strHasSub (s sub : String) : Bool := subAux sub.toList s.toList

/-- Does the string start with the given prefix? -/
def strStarts (s p : String) : Bool := List.isPrefixOf p.toList s.toList

/-- The message of an error result, "" on success. -/
def exceptMsg {α : Type} : Except PyErr α → String
  | .error e => e.msg
  | .ok _ => ""

/-- The exception class of an error result, "" on success. -/
def exceptKind {α : Type} : Except PyErr α → String
  | .error e => e.kind
  | .ok _ => ""

/-- Is the result a success? -/
def isOkE {α : Type} : Except PyErr α → Bool
  | .error _ => false
  | .ok _ => true

/-- Does `GetObject` yield a live instance in this environment? (`false`
models "no vendor process is running / no model open".) -/
def hasInstance (env : ConnEnv) : Bool :=
  match env.getObjectResult with
  | .ok (some _) => true
  | _ => false

lemma takeChunks_length {α : Type} (ks : List ℕ) (l : List α) :
    (takeChunks ks l).length = ks.length := by
  induction ks generalizing l with
  | nil => rfl
  | cons k ks ih => simp [takeChunks, ih]

lemma splitSizes_exact (n c : ℕ) (hn : n ≠ 0) :
    splitSizes (n * c) n = List.replicate n c := by
  have h1 : n * c % n = 0 := Nat.mul_mod_right n c
  have h2 : n * c / n = c := Nat.mul_div_cancel_left c (Nat.pos_of_ne_zero hn)
  simp [splitSizes, h1, h2, List.map_const']

lemma takeChunks_replicate_getElem {α : Type} (c : ℕ) :
    ∀ (n : ℕ) (l : List α), l.length = n * c →
      ∀ i, i < n → (takeChunks (List.replicate n c) l)[i]? =
        some ((l.drop (i * c)).take c) := by
  intro n
  induction n with
  | zero => intro l _ i hi; exact absurd hi (Nat.not_lt_zero i)
  | succ m ih =>
    intro l hl i hi
    rw [List.replicate_succ]
    show (l.take c :: takeChunks (List.replicate m c) (l.drop c))[i]? = _
    cases i with
    | zero => simp
    | succ i2 =>
      have hl2 : (l.drop c).length = m * c := by
        rw [List.length_drop, hl]
        have : m * c + c = (m + 1) * c := by ring
        omega
      have hrec := ih (l.drop c) hl2 i2 (by omega)
      rw [List.getElem?_cons_succ, hrec, List.drop_drop]
      have : c + i2 * c = (i2 + 1) * c := by ring
      rw [this]

lemma chunk_length {α : Type} (l : List α) (n c i : ℕ)
    (hl : l.length = n * c) (hi : i < n) :
    ((l.drop (i * c)).take c).length = c := by
  rw [List.length_take, List.length_drop, hl]
  have h3 : (i + 1) * c ≤ n * c := Nat.mul_le_mul_right c hi
  have h4 : (i + 1) * c = i * c + c := by ring
  omega

lemma chunk_getElem {α : Type} (l : List α) (c i j : ℕ) (hj : j < c) :
    ((l.drop (i * c)).take c)[j]? = l[i * c + j]? := by
  rw [List.getElem?_take, if_pos hj, List.getElem?_drop]

/-- C1: for every table response whose flat value sequence has length exactly
row_count × n_columns with row_count > 0, the reshaping step produces exactly
row_count rows, each of length n_columns, and preserves row-major order: the
cell at row i, column j of the result table equals element
i * n_columns + j of the flat sequence. -/
theorem C1_reshape_rowmajor (env : TablesEnv) (k g : String) (nt : ℕ)
    (keys cols : List String) (nr : ℤ) (flat : List String)
    (hav : env.availableTables = .ok (nt, keys)) (hnt : nt ≠ 0) (hk : k ∈ keys)
    (ht : env.getTable k g = .ok ⟨cols, nr, flat⟩) (hpos : 0 < nr)
    (hlen : flat.length = nr.toNat * cols.length) :
    ∃ df : DataFrame, (retrieve_table_data env k g).1 = .ok df ∧
      df.columns = cols ∧
      df.rows.length = nr.toNat ∧
      (∀ r ∈ df.rows, r.length = cols.length) ∧
      (∀ i j, i < nr.toNat → j < cols.length →
        (df.rows[i]?).bind (fun r => r[j]?) = (flat[i * cols.length + j]?).map Cell.str) := by
  have hnle : ¬ nr ≤ 0 := not_le.mpr hpos
  have hres : (retrieve_table_data env k g).1 =
      .ok ⟨cols, (arraySplit flat nr.toNat).map (fun r => r.map Cell.str)⟩ := by
    unfold retrieve_table_data
    rw [hav]
    simp [hnt, hk, ht, hnle]
  have hn : nr.toNat ≠ 0 := by omega
  have hsplit : arraySplit flat nr.toNat =
      takeChunks (List.replicate nr.toNat cols.length) flat := by
    unfold arraySplit
    rw [hlen, splitSizes_exact nr.toNat cols.length hn]
  refine ⟨⟨cols, (arraySplit flat nr.toNat).map (fun r => r.map Cell.str)⟩, hres, rfl, ?_, ?_, ?_⟩
  · rw [List.length_map, hsplit, takeChunks_length, List.length_replicate]
  · intro r hr
    rw [hsplit] at hr
    obtain ⟨chunk, hchunk, hmap⟩ := List.mem_map.mp hr
    obtain ⟨i, hget⟩ := List.mem_iff_getElem?.mp hchunk
    have hlt : i < nr.toNat := by
      have := List.getElem?_eq_some.mp hget
      obtain ⟨hb, _⟩ := this
      rwa [takeChunks_length, List.length_replicate] at hb
    rw [takeChunks_replicate_getElem cols.length nr.toNat flat hlen i hlt] at hget
    have hchunkeq : chunk = (flat.drop (i * cols.length)).take cols.length :=
      (Option.some.inj hget).symm
    rw [← hmap, List.length_map, hchunkeq,
      chunk_length flat nr.toNat cols.length i hlen hlt]
  · intro i j hi hj
    rw [hsplit, List.getElem?_map,
      takeChunks_replicate_getElem cols.length nr.toNat flat hlen i hi]
    simp only [List.getElem?_map, Option.map_some', Option.some_bind]
    rw [chunk_getElem flat cols.length i j hj]

/-- Concrete environment used by several witnesses: one available table "T"
of two columns and two rows. -/
def envC1 : TablesEnv :=
  ⟨.ok (1, ["T"]),
   fun k _ => if k = "T" then .ok ⟨["a", "b"], 2, ["1", "2", "3", "4"]⟩
              else .error (PyErr.base "COMError" "no such table")⟩

theorem C1_reshape_rowmajor_witness :
    envC1.availableTables = .ok (1, ["T"]) ∧ (1 : ℕ) ≠ 0 ∧ "T" ∈ ["T"] ∧
    envC1.getTable "T" "" = .ok ⟨["a", "b"], 2, ["1", "2", "3", "4"]⟩ ∧
    (0 : ℤ) < 2 ∧ (["1", "2", "3", "4"] : List String).length = (2 : ℤ).toNat * (["a", "b"] : List String).length ∧
    (∃ df : DataFrame, (retrieve_table_data envC1 "T" "").1 = .ok df ∧
      df.columns = ["a", "b"] ∧
      df.rows.length = (2 : ℤ).toNat ∧
      (∀ r ∈ df.rows, r.length = (["a", "b"] : List String).length) ∧
      (∀ i j, i < (2 : ℤ).toNat → j < (["a", "b"] : List String).length →
        (df.rows[i]?).bind (fun r => r[j]?) =
          ((["1", "2", "3", "4"] : List String)[i * (["a", "b"] : List String).length + j]?).map Cell.str)) :=
  ⟨rfl, by decide, by decide, rfl, by decide, by decide,
   C1_reshape_rowmajor envC1 "T" "" 1 ["T"] ["a", "b"] 2 ["1", "2", "3", "4"]
     rfl (by decide) (by decide) rfl (by decide) (by decide)⟩

/-- C3: for every table response with row_count ≤ 0, table retrieval returns
an empty table with no inferred columns, regardless of the contents of the
flat value sequence and of the column name sequence. -/
theorem C3_empty_table (env : TablesEnv) (k g : String) (nt : ℕ)
    (keys : List String) (t : TableResponse)
    (hav : env.availableTables = .ok (nt, keys)) (hnt : nt ≠ 0) (hk : k ∈ keys)
    (ht : env.getTable k g = .ok t) (hle : t.nRows ≤ 0) :
    (retrieve_table_data env k g).1 = .ok ⟨[], []⟩ := by
  unfold retrieve_table_data
  rw [hav]
  simp [hnt, hk, ht, hle]

/-- Environment whose table "T" reports zero records but junk columns and a
nonempty flat sequence. -/
def envC3 : TablesEnv :=
  ⟨.ok (1, ["T"]),
   fun k _ => if k = "T" then .ok ⟨["junk1", "junk2"], 0, ["x", "y", "z"]⟩
              else .error (PyErr.base "COMError" "no such table")⟩

theorem C3_empty_table_witness :
    envC3.availableTables = .ok (1, ["T"]) ∧ (1 : ℕ) ≠ 0 ∧ "T" ∈ ["T"] ∧
    envC3.getTable "T" "" = .ok ⟨["junk1", "junk2"], 0, ["x", "y", "z"]⟩ ∧
    (TableResponse.mk ["junk1", "junk2"] 0 ["x", "y", "z"]).nRows ≤ 0 ∧
    (retrieve_table_data envC3 "T" "").1 = .ok ⟨[], []⟩ :=
  ⟨rfl, by decide, by decide, rfl, by decide,
   C3_empty_table envC3 "T" "" 1 ["T"] ⟨["junk1", "junk2"], 0, ["x", "y", "z"]⟩
     rfl (by decide) (by decide) rfl (by decide)⟩

/-- The vendor-call trace of `_retrieve_table_data`: the available-tables
query always comes first and is the whole trace when retrieval stops early;
the get-table call follows only when the key was reported available with a
nonzero table count. -/
lemma retrieve_trace_spec (env : TablesEnv) (k g : String) :
    (retrieve_table_data env k g).2 = [VCall.getAvailableTables]
  ∨ ((retrieve_table_data env k g).2 =
        [VCall.getAvailableTables, VCall.getTableForDisplayArray k g]
      ∧ ∃ nt keys, env.availableTables = .ok (nt, keys) ∧ nt ≠ 0 ∧ k ∈ keys) := by
  unfold retrieve_table_data
  cases hav : env.availableTables with
  | error e => left; rfl
  | ok p =>
    obtain ⟨nt, keys⟩ := p
    by_cases hnt : nt = 0
    · left; simp [hnt]
    · by_cases hk : k ∈ keys
      · right
        constructor
        · cases hgt : env.getTable k g with
          | error e => simp [hnt, hk, hgt]
          | ok t =>
            by_cases hr : t.nRows ≤ 0 <;> simp [hnt, hk, hgt, hr]
        · exact ⟨nt, keys, rfl, hnt, hk⟩
      · left; simp [hnt, hk]

/-- C8: in every execution of table retrieval, the query for the set of
available table identifiers happens before the get-table-by-name vendor call,
and the get-table-by-name call is never issued when the requested identifier
is absent from that set: the trace is either the available-tables query alone,
or that query followed by the get-table call, the latter only when the
identifier was reported present (with a nonzero count). -/
theorem C8_available_before_get (env : TablesEnv) (k g : String) :
    (retrieve_table_data env k g).2 = [VCall.getAvailableTables]
  ∨ ((retrieve_table_data env k g).2 =
        [VCall.getAvailableTables, VCall.getTableForDisplayArray k g]
      ∧ ∃ nt keys, env.availableTables = .ok (nt, keys) ∧ nt ≠ 0 ∧ k ∈ keys) :=
  retrieve_trace_spec env k g

lemma retrieve_trace_no_selection (env : TablesEnv) (k g : String) :
    (retrieve_table_data env k g).2.filter selectionMutating = [] := by
  rcases retrieve_trace_spec env k g with h | ⟨h, _⟩ <;> rw [h] <;> rfl

/-- Amended C2: with both filters omitted the four table methods issue no
load-case or load-combination selected-for-display call, but each still
issues the unconditional `DeselectAllCasesAndCombosForOutput` — the only
selection-state-changing vendor call of the run. -/
theorem C2_deselect_always (env : TablesEnv) (g : String) :
    ((element_forces_frames env none none g).2.filter selectionMutating
        = [VCall.deselectAllCasesAndCombosForOutput])
  ∧ ((joint_displacements env none none g).2.filter selectionMutating
        = [VCall.deselectAllCasesAndCombosForOutput])
  ∧ ((base_reactions env none none g).2.filter selectionMutating
        = [VCall.deselectAllCasesAndCombosForOutput])
  ∧ ((element_forces_beams env none none g).2.filter selectionMutating
        = [VCall.deselectAllCasesAndCombosForOutput]) := by
  refine ⟨?_, ?_, ?_, ?_⟩ <;>
    simp [element_forces_frames, joint_displacements, base_reactions,
      element_forces_beams, selectionCalls, List.filter_append,
      retrieve_trace_no_selection, List.filter, selectionMutating]

/-- Tables environment for the C2 counterexample. -/
def envC2 : TablesEnv :=
  ⟨.ok (1, ["Element Forces - Frames"]), fun _ _ => .ok ⟨["Frame"], 1, ["7"]⟩⟩

/-- C2 counterexample: calling `element_forces_frames` with both filters
omitted still issues `DeselectAllCasesAndCombosForOutput` as its very first
vendor call, a call that changes the load-case/load-combination selection
state — so the selection state is not left unchanged. -/
theorem C2_counterexample :
    (element_forces_frames envC2 none none "").2.head? =
      some VCall.deselectAllCasesAndCombosForOutput ∧
    selectionMutating VCall.deselectAllCasesAndCombosForOutput = true := by
  exact ⟨rfl, rfl⟩

lemma isPrefixOf_append_self (p t : List Char) : List.isPrefixOf p (p ++ t) = true := by
  induction p with
  | nil => simp [List.isPrefixOf]
  | cons c cs ih => simp [List.isPrefixOf, ih]

lemma subAux_here (p t : List Char) : subAux p (p ++ t) = true := by
  cases p with
  | nil =>
    cases t with
    | nil => rfl
    | cons c cs => simp [subAux]
  | cons c cs =>
    show subAux (c :: cs) (c :: (cs ++ t)) = true
    simp [subAux, isPrefixOf_append_self]

lemma subAux_append_right (p x t : List Char) (h : subAux p t = true) :
    subAux p (x ++ t) = true := by
  induction x with
  | nil => exact h
  | cons c cs ih =>
    show subAux p (c :: (cs ++ t)) = true
    simp [subAux, ih]

lemma toList_append (a b : String) : (a ++ b).toList = a.toList ++ b.toList :=
  String.data_append a b

/-- A string contains any middle part of an append chain. -/
lemma strHasSub_middle (pre p suf : String) : strHasSub (pre ++ (p ++ suf)) p = true := by
  show subAux p.toList (pre ++ (p ++ suf)).toList = true
  rw [toList_append, toList_append]
  exact subAux_append_right _ _ _ (subAux_here _ _)

lemma strHasSub_of_eq (s p q : String) (h : s = q) (hq : strHasSub q p = true) :
    strHasSub s p = true := by rw [h]; exact hq

lemma wrapRetrieveErr_msg (k : String) (e : PyErr) :
    (wrapRetrieveErr k e).msg =
      "Failed to retrieve table " ++ (("'" ++ k ++ "'") ++ (": " ++ e.msg)) := by
  show "Failed to retrieve table '" ++ k ++ "': " ++ e.msg = _
  apply String.ext
  simp [String.data_append, List.append_assoc]

lemma wrap_has_key (k : String) (e : PyErr) :
    strHasSub (wrapRetrieveErr k e).msg ("'" ++ k ++ "'") = true := by
  rw [wrapRetrieveErr_msg]
  exact strHasSub_middle _ _ _

lemma count_msg_has (k : String) (nt : ℕ) :
    strHasSub (wrapRetrieveErr k (PyErr.base "RuntimeError"
      ("Failed to retrieve '" ++ k ++ "'. It was not found amongst the "
        ++ toString nt ++ " tables."))).msg (toString nt) = true := by
  apply strHasSub_of_eq _ _ (("Failed to retrieve table '" ++ k ++ "': "
      ++ ("Failed to retrieve '" ++ k ++ "'. It was not found amongst the "))
      ++ (toString nt ++ " tables."))
  · show "Failed to retrieve table '" ++ k ++ "': "
        ++ ("Failed to retrieve '" ++ k ++ "'. It was not found amongst the "
        ++ toString nt ++ " tables.") = _
    apply String.ext
    simp [String.data_append, List.append_assoc]
  · exact strHasSub_middle _ _ _

/-- Tables environment with an empty available-tables set, for the C4
counterexample. -/
def envC4 : TablesEnv :=
  ⟨.ok (0, []), fun _ _ => .error (PyErr.base "COMError" "unreachable")⟩

/-- C4 counterexample: the identifier "X" is not in the (empty) set of
available identifiers and retrieval does fail with the retrieval error naming
the table, but the message is the no-tables one and does not state the count
of known tables — it contains no "0". -/
theorem C4_counterexample :
    exceptKind (retrieve_table_data envC4 "X" "").1 = "RuntimeError" ∧
    exceptMsg (retrieve_table_data envC4 "X" "").1 =
      "Failed to retrieve table 'X': No tables were found in the open model." ∧
    strHasSub (exceptMsg (retrieve_table_data envC4 "X" "").1) "0" = false := by
  refine ⟨rfl, rfl, by decide⟩

/-- Amended C4: requesting a table whose identifier is not among the reported
available identifiers always fails with the retrieval `RuntimeError`, whose
message names the requested table in quotes; the message additionally states
the count of known tables whenever that count is nonzero (with zero known
tables the message instead reports that no tables were found in the model). -/
theorem C4_unknown_table (env : TablesEnv) (k g : String) (nt : ℕ)
    (keys : List String) (hav : env.availableTables = .ok (nt, keys))
    (hk : k ∉ keys) :
    ∃ e, (retrieve_table_data env k g).1 = .error e ∧ e.kind = "RuntimeError" ∧
      strHasSub e.msg ("'" ++ k ++ "'") = true ∧
      (nt ≠ 0 → strHasSub e.msg (toString nt) = true) := by
  by_cases hnt : nt = 0
  · refine ⟨wrapRetrieveErr k
      (PyErr.base "RuntimeError" "No tables were found in the open model."),
      ?_, rfl, wrap_has_key _ _, fun h => absurd hnt h⟩
    unfold retrieve_table_data
    rw [hav]
    simp [hnt]
  · refine ⟨wrapRetrieveErr k (PyErr.base "RuntimeError"
      ("Failed to retrieve '" ++ k ++ "'. It was not found amongst the "
        ++ toString nt ++ " tables.")),
      ?_, rfl, wrap_has_key _ _, fun _ => count_msg_has k nt⟩
    unfold retrieve_table_data
    rw [hav]
    simp [hnt, hk]

/-- Tables environment with three available tables, none of them "X". -/
def envC4w : TablesEnv :=
  ⟨.ok (3, ["A", "B", "C"]), fun _ _ => .error (PyErr.base "COMError" "boom")⟩

theorem C4_unknown_table_witness :
    envC4w.availableTables = .ok (3, ["A", "B", "C"]) ∧
    "X" ∉ (["A", "B", "C"] : List String) ∧
    (∃ e, (retrieve_table_data envC4w "X" "").1 = .error e ∧ e.kind = "RuntimeError" ∧
      strHasSub e.msg ("'" ++ "X" ++ "'") = true ∧
      ((3 : ℕ) ≠ 0 → strHasSub e.msg (toString (3 : ℕ)) = true)) :=
  ⟨rfl, by decide, C4_unknown_table envC4w "X" "" 3 ["A", "B", "C"] rfl (by decide)⟩

lemma isPrefixOf_append_same (a b c : List Char) :
    List.isPrefixOf (a ++ b) (a ++ c) = List.isPrefixOf b c := by
  induction a with
  | nil => rfl
  | cons x xs ih => simp [List.isPrefixOf, ih]

/-- The retrieval wrapper's message starts with the quoted table name. -/
lemma strStarts_wrap (k m : String) :
    strStarts ("Failed to retrieve table '" ++ k ++ "': " ++ m)
      ("Failed to retrieve table '" ++ k ++ "'") = true := by
  show List.isPrefixOf ("Failed to retrieve table '" ++ k ++ "'").toList
      ("Failed to retrieve table '" ++ k ++ "': " ++ m).toList = true
  simp only [toList_append]
  rw [List.append_assoc ("Failed to retrieve table '".toList ++ k.toList) "': ".toList m.toList,
    show "': ".toList = "'".toList ++ ": ".toList from by decide,
    List.append_assoc "'".toList ": ".toList m.toList,
    isPrefixOf_append_same]
  exact isPrefixOf_append_self _ _

/-- Every error result of `_retrieve_table_data` is the retrieval wrapper
applied to some inner exception. -/
lemma retrieve_error_shape (env : TablesEnv) (k g : String) (e : PyErr)
    (he : (retrieve_table_data env k g).1 = .error e) :
    ∃ inner, e = wrapRetrieveErr k inner := by
  unfold retrieve_table_data at he
  cases hav : env.availableTables with
  | error pe =>
    rw [hav] at he
    exact ⟨pe, (Except.error.inj he).symm⟩
  | ok p =>
    obtain ⟨nt, keys⟩ := p
    rw [hav] at he
    dsimp only at he
    by_cases hnt : nt = 0
    · rw [if_pos hnt] at he
      exact ⟨_, (Except.error.inj he).symm⟩
    · rw [if_neg hnt] at he
      by_cases hk : k ∉ keys
      · rw [if_pos hk] at he
        exact ⟨_, (Except.error.inj he).symm⟩
      · rw [if_neg hk] at he
        cases hgt : env.getTable k g with
        | error pe =>
          rw [hgt] at he
          exact ⟨_, (Except.error.inj he).symm⟩
        | ok t =>
          rw [hgt] at he
          dsimp only at he
          by_cases hr : t.nRows ≤ 0
          · rw [if_pos hr] at he
            exact Except.noConfusion he
          · rw [if_neg hr] at he
            exact Except.noConfusion he

/-- C9: every failure inside table retrieval — a failing available-tables
vendor call, a zero-table model, and an exception raised by the get-table
vendor call — surfaces as the single retrieval-error kind (`RuntimeError`)
whose message begins with "Failed to retrieve table '<table_key>'" and which
carries the original exception as its cause. -/
theorem C9_wrapped_failures (env : TablesEnv) (k g : String) :
    (∀ e, (retrieve_table_data env k g).1 = .error e →
        e.kind = "RuntimeError" ∧
        strStarts e.msg ("Failed to retrieve table '" ++ k ++ "'") = true ∧
        e.cause.isSome = true)
  ∧ (∀ pe, env.availableTables = .error pe →
        (retrieve_table_data env k g).1 = .error (wrapRetrieveErr k pe))
  ∧ (∀ keys, env.availableTables = .ok (0, keys) →
        (retrieve_table_data env k g).1 = .error (wrapRetrieveErr k
          (PyErr.base "RuntimeError" "No tables were found in the open model.")))
  ∧ (∀ nt keys pe, env.availableTables = .ok (nt, keys) → nt ≠ 0 → k ∈ keys →
        env.getTable k g = .error pe →
        (retrieve_table_data env k g).1 = .error (wrapRetrieveErr k pe)) := by
  refine ⟨?_, ?_, ?_, ?_⟩
  · intro e he
    obtain ⟨inner, rfl⟩ := retrieve_error_shape env k g e he
    exact ⟨rfl, strStarts_wrap k inner.msg, rfl⟩
  · intro pe hpe
    unfold retrieve_table_data
    rw [hpe]
  · intro keys hav0
    unfold retrieve_table_data
    rw [hav0]
    simp
  · intro nt keys pe hav hnt hk hgt
    unfold retrieve_table_data
    rw [hav]
    simp [hnt, hk, hgt]

/-- Tables environment whose available-tables vendor call itself raises. -/
def envC9 : TablesEnv :=
  ⟨.error (PyErr.base "COMError" "boom"), fun _ _ => .error (PyErr.base "COMError" "x")⟩

theorem C9_wrapped_failures_witness :
    envC9.availableTables = .error (PyErr.base "COMError" "boom") ∧
    (retrieve_table_data envC9 "T" "").1 =
      .error (wrapRetrieveErr "T" (PyErr.base "COMError" "boom")) :=
  ⟨rfl, (C9_wrapped_failures envC9 "T" "").2.1 (PyErr.base "COMError" "boom") rfl⟩

/-- C7: for every attempt to connect when no vendor process is running
(`GetObject` raises or yields `None`), connection fails with a connection
error naming the likely cause (application not running, or no model open),
after a single `GetObject` attempt with no retry, and never returns a handle.
(The embedding is a total function, so the wrapper adds no waiting of its
own; each operation blocks only on the underlying automation call itself.) -/
theorem C7_connect_no_instance (env : ConnEnv)
    (hh : env.createHelper = .ok ()) (hno : hasInstance env = false) :
    ∃ e, (connect_to_etabs env).1 = .error e ∧
      e.kind = "ETABSConnectionError" ∧
      (strHasSub e.msg "ETABS is running and a model is open" = true ∨
        strHasSub e.msg "ETABS may not be running or no model is open" = true) ∧
      (connect_to_etabs env).2.countP isGetObject = 1 ∧
      isOkE (connect_to_etabs env).1 = false := by
  unfold connect_to_etabs
  rw [hh]
  cases hgo : env.getObjectResult with
  | error e0 =>
    refine ⟨_, rfl, rfl, ?_, rfl, rfl⟩
    left
    show strHasSub ("Could not connect to running ETABS instance. "
      ++ "Please ensure ETABS is running and a model is open.")
      "ETABS is running and a model is open" = true
    decide
  | ok o =>
    cases o with
    | none =>
      refine ⟨_, rfl, rfl, ?_, rfl, rfl⟩
      right
      show strHasSub ("Could not get connection to running ETABS instance. "
        ++ "ETABS may not be running or no model is open.")
        "ETABS may not be running or no model is open" = true
      decide
    | some h =>
      exfalso
      unfold hasInstance at hno
      rw [hgo] at hno
      exact Bool.noConfusion hno

/-- Connection environment where the helper is created but `GetObject` finds
no running instance. -/
def envC7 : ConnEnv := ⟨.ok (), .ok none⟩

theorem C7_connect_no_instance_witness :
    envC7.createHelper = .ok () ∧ hasInstance envC7 = false ∧
    (∃ e, (connect_to_etabs envC7).1 = .error e ∧
      e.kind = "ETABSConnectionError" ∧
      (strHasSub e.msg "ETABS is running and a model is open" = true ∨
        strHasSub e.msg "ETABS may not be running or no model is open" = true) ∧
      (connect_to_etabs envC7).2.countP isGetObject = 1 ∧
      isOkE (connect_to_etabs envC7).1 = false) :=
  ⟨rfl, rfl, C7_connect_no_instance envC7 rfl rfl⟩

/-- C10: every `open_file` call first initializes a new blank model before
issuing the open-file vendor call, and either returns `True` (both vendor
calls returned 0) or raises a `RuntimeError` naming the file path and the
vendor error code; it never returns `False`. -/
theorem C10_open_file (env : FileEnv) (p : String) :
    ((open_file env p).2.take 2 = [VCall.initializeNewModel, VCall.openFileVendor p])
  ∧ (env.openFileRet p = 0 → env.setPresentUnitsRet = 0 → (open_file env p).1 = .ok true)
  ∧ (env.openFileRet p ≠ 0 →
      ∃ e, (open_file env p).1 = .error e ∧ e.kind = "RuntimeError" ∧
        strHasSub e.msg ("'" ++ p ++ "'") = true ∧
        strHasSub e.msg (toString (env.openFileRet p)) = true)
  ∧ (env.openFileRet p = 0 → env.setPresentUnitsRet ≠ 0 →
      ∃ e, (open_file env p).1 = .error e ∧ e.kind = "RuntimeError" ∧
        strHasSub e.msg ("'" ++ p ++ "'") = true ∧
        strHasSub e.msg (toString env.setPresentUnitsRet) = true)
  ∧ ((open_file env p).1 ≠ .ok false) := by
  refine ⟨?_, ?_, ?_, ?_, ?_⟩
  · unfold open_file
    by_cases h1 : env.openFileRet p ≠ 0
    · rw [if_pos h1]
      rfl
    · rw [if_neg h1]
      by_cases h2 : env.setPresentUnitsRet ≠ 0
      · rw [if_pos h2]
        rfl
      · rw [if_neg h2]
        rfl
  · intro h1 h2
    unfold open_file
    rw [if_neg (fun hc => hc h1), if_neg (fun hc => hc h2)]
  · intro h1
    unfold open_file
    rw [if_pos h1]
    refine ⟨_, rfl, rfl, ?_, ?_⟩
    · apply strHasSub_of_eq _ _
        ("Failed to open file " ++ (("'" ++ p ++ "'") ++ (". Error code: " ++ toString (env.openFileRet p))))
      · show "Failed to open file '" ++ p ++ "'. Error code: " ++ toString (env.openFileRet p) = _
        apply String.ext
        simp [String.data_append, List.append_assoc]
      · exact strHasSub_middle _ _ _
    · apply strHasSub_of_eq _ _
        (("Failed to open file '" ++ p ++ "'. Error code: ")
          ++ (toString (env.openFileRet p) ++ ""))
      · show "Failed to open file '" ++ p ++ "'. Error code: " ++ toString (env.openFileRet p) = _
        apply String.ext
        simp [String.data_append, List.append_assoc]
      · exact strHasSub_middle _ _ _
  · intro h1 h2
    unfold open_file
    rw [if_neg (fun hc => hc h1), if_pos h2]
    refine ⟨_, rfl, rfl, ?_, ?_⟩
    · apply strHasSub_of_eq _ _
        ("Failed to set units for file " ++ (("'" ++ p ++ "'") ++ (". Error code: " ++ toString env.setPresentUnitsRet)))
      · show "Failed to set units for file '" ++ p ++ "'. Error code: " ++ toString env.setPresentUnitsRet = _
        apply String.ext
        simp [String.data_append, List.append_assoc]
      · exact strHasSub_middle _ _ _
    · apply strHasSub_of_eq _ _
        (("Failed to set units for file '" ++ p ++ "'. Error code: ")
          ++ (toString env.setPresentUnitsRet ++ ""))
      · show "Failed to set units for file '" ++ p ++ "'. Error code: " ++ toString env.setPresentUnitsRet = _
        apply String.ext
        simp [String.data_append, List.append_assoc]
      · exact strHasSub_middle _ _ _
  · unfold open_file
    by_cases h1 : env.openFileRet p ≠ 0
    · rw [if_pos h1]
      exact fun hc => Except.noConfusion hc
    · rw [if_neg h1]
      by_cases h2 : env.setPresentUnitsRet ≠ 0
      · rw [if_pos h2]
        exact fun hc => Except.noConfusion hc
      · rw [if_neg h2]
        intro hc
        exact Bool.noConfusion (Except.ok.inj hc)

/-- File environment whose open-file vendor call fails with code 3. -/
def envC10 : FileEnv := ⟨0, fun _ => 3, 0⟩

theorem C10_open_file_witness :
    envC10.openFileRet "m.sdb" ≠ 0 ∧
    (∃ e, (open_file envC10 "m.sdb").1 = .error e ∧ e.kind = "RuntimeError" ∧
      strHasSub e.msg ("'" ++ "m.sdb" ++ "'") = true ∧
      strHasSub e.msg (toString (envC10.openFileRet "m.sdb")) = true) :=
  ⟨by decide, (C10_open_file envC10 "m.sdb").2.2.1 (by decide)⟩

/-- C6 counterexample: three pairwise distinct exception classes are surfaced
by the wrapper — `ETABSConnectionError`, `SAP2000ConnectionError` and
`RuntimeError` — so the surfaced errors are not of exactly two distinct
exception kinds. -/
theorem C6_counterexample :
    exceptKind (connect_to_etabs ⟨.ok (), .ok none⟩).1 = "ETABSConnectionError" ∧
    exceptKind (connect_to_sap2000 ⟨.ok (), .ok none⟩).1 = "SAP2000ConnectionError" ∧
    exceptKind (retrieve_table_data ⟨.ok (0, []),
      fun _ _ => .error (PyErr.base "COMError" "x")⟩ "X" "").1 = "RuntimeError" ∧
    ("ETABSConnectionError" : String) ≠ "SAP2000ConnectionError" ∧
    ("ETABSConnectionError" : String) ≠ "RuntimeError" ∧
    ("SAP2000ConnectionError" : String) ≠ "RuntimeError" :=
  ⟨rfl, rfl, rfl, by decide, by decide, by decide⟩

/-- Amended C6: the wrapper surfaces exactly three exception classes —
`ETABSConnectionError` and `SAP2000ConnectionError` for connection failures
(one per vendor application) and `RuntimeError` for table-retrieval and
file-operation failures — with no overlap between the connection kinds and
the retrieval kind, a single attempt per operation (at most one `GetObject`
and at most one get-table vendor call), and no partial result beyond the
empty table for zero-row responses. -/
theorem C6_error_kinds :
    (∀ (env : ConnEnv) e, (connect_to_etabs env).1 = .error e →
        e.kind = "ETABSConnectionError")
  ∧ (∀ (env : ConnEnv) e, (connect_to_sap2000 env).1 = .error e →
        e.kind = "SAP2000ConnectionError")
  ∧ (∀ (env : TablesEnv) k g e, (retrieve_table_data env k g).1 = .error e →
        e.kind = "RuntimeError")
  ∧ (∀ (env : FileEnv) p e, (open_file env p).1 = .error e →
        e.kind = "RuntimeError")
  ∧ (("ETABSConnectionError" : String) ≠ "RuntimeError"
      ∧ ("SAP2000ConnectionError" : String) ≠ "RuntimeError"
      ∧ ("ETABSConnectionError" : String) ≠ "SAP2000ConnectionError")
  ∧ (∀ (env : ConnEnv), (connect_to_etabs env).2.countP isGetObject ≤ 1)
  ∧ (∀ (env : TablesEnv) k g, (retrieve_table_data env k g).2.countP isGetTable ≤ 1) := by
  refine ⟨?_, ?_, ?_, ?_, ⟨by decide, by decide, by decide⟩, ?_, ?_⟩
  · intro env e he
    unfold connect_to_etabs at he
    cases hch : env.createHelper with
    | error e0 =>
      rw [hch] at he
      rw [← Except.error.inj he]
      rfl
    | ok u =>
      rw [hch] at he
      dsimp only at he
      cases hgo : env.getObjectResult with
      | error e0 =>
        rw [hgo] at he
        rw [← Except.error.inj he]
        rfl
      | ok o =>
        rw [hgo] at he
        cases o with
        | none =>
          rw [← Except.error.inj he]
          rfl
        | some h => exact Except.noConfusion he
  · intro env e he
    unfold connect_to_sap2000 at he
    cases hch : env.createHelper with
    | error e0 =>
      rw [hch] at he
      rw [← Except.error.inj he]
      rfl
    | ok u =>
      rw [hch] at he
      dsimp only at he
      cases hgo : env.getObjectResult with
      | error e0 =>
        rw [hgo] at he
        rw [← Except.error.inj he]
        rfl
      | ok o =>
        rw [hgo] at he
        cases o with
        | none =>
          rw [← Except.error.inj he]
          rfl
        | some h => exact Except.noConfusion he
  · intro env k g e he
    obtain ⟨inner, rfl⟩ := retrieve_error_shape env k g e he
    rfl
  · intro env p e he
    unfold open_file at he
    by_cases h1 : env.openFileRet p ≠ 0
    · rw [if_pos h1] at he
      rw [← Except.error.inj he]
      rfl
    · rw [if_neg h1] at he
      by_cases h2 : env.setPresentUnitsRet ≠ 0
      · rw [if_pos h2] at he
        rw [← Except.error.inj he]
        rfl
      · rw [if_neg h2] at he
        exact Except.noConfusion he
  · intro env
    unfold connect_to_etabs
    cases hch : env.createHelper with
    | error e0 => simp [List.countP_cons, List.countP_nil, isGetObject]
    | ok u =>
      cases hgo : env.getObjectResult with
      | error e0 => simp [List.countP_cons, List.countP_nil, isGetObject]
      | ok o =>
        cases o <;> simp [List.countP_cons, List.countP_nil, isGetObject]
  · intro env k g
    rcases retrieve_trace_spec env k g with h | ⟨h, _⟩ <;> rw [h] <;>
      simp [List.countP_cons, List.countP_nil, isGetTable]

theorem C6_error_kinds_witness :
    (connect_to_etabs ⟨.ok (), .ok none⟩).1 = .error (PyErr.base "ETABSConnectionError"
      "Could not get connection to running ETABS instance. ETABS may not be running or no model is open.") ∧
    PyErr.kind (PyErr.base "ETABSConnectionError"
      "Could not get connection to running ETABS instance. ETABS may not be running or no model is open.")
      = "ETABSConnectionError" :=
  ⟨rfl, C6_error_kinds.1 ⟨.ok (), .ok none⟩ _ rfl⟩

lemma colIdx_get (name : String) : ∀ (cols : List String) (j : ℕ),
    colIdx name cols = some j → cols[j]? = some name := by
  intro cols
  induction cols with
  | nil => exact fun j h => Option.noConfusion h
  | cons c cs ih =>
    intro j h
    unfold colIdx at h
    by_cases hc : c = name
    · rw [if_pos hc] at h
      rw [← Option.some.inj h]
      simp [hc]
    · rw [if_neg hc] at h
      cases hcs : colIdx name cs with
      | none =>
        rw [hcs] at h
        exact Option.noConfusion h
      | some j0 =>
        rw [hcs] at h
        simp only [Option.map_some'] at h
        rw [← Option.some.inj h, List.getElem?_cons_succ]
        exact ih j0 hcs

lemma colIdx_none (name : String) : ∀ (cols : List String), name ∉ cols →
    colIdx name cols = none := by
  intro cols
  induction cols with
  | nil => intro; rfl
  | cons c cs ih =>
    intro h
    unfold colIdx
    rw [if_neg (fun hc => h (by rw [← hc]; exact List.mem_cons_self c cs)),
      ih (fun hm => h (List.mem_cons_of_mem c hm))]
    rfl

lemma modifyAt_getElem_self (f : Cell → Cell) : ∀ (j : ℕ) (r : List Cell),
    (modifyAt f j r)[j]? = (r[j]?).map f := by
  intro j
  induction j with
  | zero => intro r; cases r <;> simp [modifyAt]
  | succ n ih =>
    intro r
    cases r with
    | nil => rfl
    | cons c cs =>
      rw [show modifyAt f (n + 1) (c :: cs) = c :: modifyAt f n cs from by simp [modifyAt],
        List.getElem?_cons_succ, List.getElem?_cons_succ]
      exact ih cs

lemma modifyAt_getElem_other (f : Cell → Cell) : ∀ (j k : ℕ) (r : List Cell),
    k ≠ j → (modifyAt f j r)[k]? = r[k]? := by
  intro j
  induction j with
  | zero =>
    intro k r hk
    cases r with
    | nil => rfl
    | cons c cs =>
      cases k with
      | zero => exact absurd rfl hk
      | succ k2 => simp [modifyAt]
  | succ n ih =>
    intro k r hk
    cases r with
    | nil => rfl
    | cons c cs =>
      rw [show modifyAt f (n + 1) (c :: cs) = c :: modifyAt f n cs from by simp [modifyAt]]
      cases k with
      | zero => simp
      | succ k2 =>
        rw [List.getElem?_cons_succ, List.getElem?_cons_succ]
        exact ih k2 cs (fun hcon => hk (by rw [hcon]))

lemma getCell_mapColumn_self (df : DataFrame) (name : String) (f : Cell → Cell) (i : ℕ) :
    getCell (mapColumn df name f) i name = (getCell df i name).map f := by
  unfold mapColumn
  cases hj : colIdx name df.columns with
  | none =>
    unfold getCell
    rw [hj]
    rfl
  | some j =>
    unfold getCell
    dsimp only
    rw [hj]
    cases hrow : df.rows[i]? with
    | none =>
      rw [List.getElem?_map, hrow]
      rfl
    | some r =>
      rw [List.getElem?_map, hrow]
      simp only [Option.map_some', Option.some_bind]
      exact modifyAt_getElem_self f j r

lemma getCell_mapColumn_other (df : DataFrame) (name : String) (f : Cell → Cell)
    (i : ℕ) (other : String) (hne : other ≠ name) :
    getCell (mapColumn df name f) i other = getCell df i other := by
  unfold mapColumn
  cases hj : colIdx name df.columns with
  | none => rfl
  | some j =>
    unfold getCell
    dsimp only
    cases hj2 : colIdx other df.columns with
    | none => rfl
    | some j2 =>
      have hne2 : j2 ≠ j := by
        intro hcon
        have h1 := colIdx_get name df.columns j hj
        have h2 := colIdx_get other df.columns j2 hj2
        rw [hcon, h1] at h2
        exact hne (Option.some.inj h2).symm
      cases hrow : df.rows[i]? with
      | none =>
        rw [List.getElem?_map, hrow]
        rfl
      | some r =>
        rw [List.getElem?_map, hrow]
        simp only [Option.map_some', Option.some_bind]
        exact modifyAt_getElem_other f j j2 r hne2

lemma getCell_guardMap_self (df : DataFrame) (name : String) (f : Cell → Cell) (i : ℕ) :
    getCell (if name ∈ df.columns then mapColumn df name f else df) i name =
      (getCell df i name).map f := by
  by_cases h : name ∈ df.columns
  · rw [if_pos h]
    exact getCell_mapColumn_self df name f i
  · rw [if_neg h]
    unfold getCell
    rw [colIdx_none name df.columns h]
    rfl

lemma getCell_guardMap_other (df : DataFrame) (name : String) (f : Cell → Cell)
    (i : ℕ) (other : String) (hne : other ≠ name) :
    getCell (if name ∈ df.columns then mapColumn df name f else df) i other =
      getCell df i other := by
  by_cases h : name ∈ df.columns
  · rw [if_pos h]
    exact getCell_mapColumn_other df name f i other hne
  · rw [if_neg h]

lemma getCell_coerceFloatCols_not_mem (L : List String) : ∀ (df : DataFrame) (i : ℕ)
    (name : String), name ∉ L →
    getCell (coerceFloatCols df L) i name = getCell df i name := by
  induction L with
  | nil => intro df i name _; rfl
  | cons c cs ih =>
    intro df i name h
    show getCell (coerceFloatCols
      (if c ∈ df.columns then mapColumn df c coerceFloat else df) cs) i name = _
    rw [ih _ i name (fun hm => h (List.mem_cons_of_mem c hm))]
    exact getCell_guardMap_other df c coerceFloat i name
      (fun he => h (by rw [he]; exact List.mem_cons_self c cs))

lemma getCell_coerceFloatCols_mem (L : List String) : ∀ (df : DataFrame) (i : ℕ)
    (name : String), name ∈ L → L.Nodup →
    getCell (coerceFloatCols df L) i name = (getCell df i name).map coerceFloat := by
  induction L with
  | nil => intro df i name h _; exact absurd h (List.not_mem_nil name)
  | cons c cs ih =>
    intro df i name h hnd
    have hnd2 := List.nodup_cons.mp hnd
    by_cases hc : name = c
    · subst hc
      show getCell (coerceFloatCols
        (if name ∈ df.columns then mapColumn df name coerceFloat else df) cs) i name = _
      rw [getCell_coerceFloatCols_not_mem cs _ i name hnd2.1]
      exact getCell_guardMap_self df name coerceFloat i
    · have hmem : name ∈ cs := (List.mem_cons.mp h).resolve_left hc
      show getCell (coerceFloatCols
        (if c ∈ df.columns then mapColumn df c coerceFloat else df) cs) i name = _
      rw [ih _ i name hmem hnd2.2]
      rw [getCell_guardMap_other df c coerceFloat i name hc]

/-- Amended C5: the numeric coercion of the table methods is total (each cell
maps through a total function, nothing raises); on the designated float
columns (P, V2, V3, T, M2, M3; U1, U2, U3, R1, R2, R3; FX, FY, FZ, MX, MY,
MZ) each entry becomes the float whose value is the parsed number, or zero
when the entry does not parse; on the integer identifier columns Frame and
Joint each entry becomes that number additionally truncated toward zero to an
integer (so a parsed "3.7" becomes 3, not 3.7), or zero when it does not
parse. -/
theorem C5_numeric_coercion (df : DataFrame) (i : ℕ) (name : String) (c : Cell) :
    ((name ∈ (["P", "V2", "V3", "T", "M2", "M3"] : List String)) →
        getCell df i name = some c →
        getCell (framesNumeric df) i name =
          some (Cell.fl ((Cell.toNumeric c).getD ⟨0, 0⟩)))
  ∧ (getCell df i "Frame" = some c →
        getCell (framesNumeric df) i "Frame" =
          some (Cell.intv (((Cell.toNumeric c).getD ⟨0, 0⟩).trunc)))
  ∧ ((name ∈ (["U1", "U2", "U3", "R1", "R2", "R3"] : List String)) →
        getCell df i name = some c →
        getCell (jointsNumeric df) i name =
          some (Cell.fl ((Cell.toNumeric c).getD ⟨0, 0⟩)))
  ∧ (getCell df i "Joint" = some c →
        getCell (jointsNumeric df) i "Joint" =
          some (Cell.intv (((Cell.toNumeric c).getD ⟨0, 0⟩).trunc)))
  ∧ ((name ∈ (["FX", "FY", "FZ", "MX", "MY", "MZ"] : List String)) →
        getCell df i name = some c →
        getCell (baseReactionsNumeric df) i name =
          some (Cell.fl ((Cell.toNumeric c).getD ⟨0, 0⟩))) := by
  refine ⟨?_, ?_, ?_, ?_, ?_⟩
  · intro hmem hc
    unfold framesNumeric coerceIntCol
    have hne : name ≠ "Frame" := fun he => by subst he; revert hmem; decide
    rw [getCell_coerceFloatCols_mem _ _ i name hmem (by decide),
      getCell_guardMap_other df "Frame" coerceInt i name hne, hc]
    rfl
  · intro hc
    unfold framesNumeric coerceIntCol
    rw [getCell_coerceFloatCols_not_mem _ _ i "Frame" (by decide),
      getCell_guardMap_self df "Frame" coerceInt i, hc]
    rfl
  · intro hmem hc
    unfold jointsNumeric coerceIntCol
    have hne : name ≠ "Joint" := fun he => by subst he; revert hmem; decide
    rw [getCell_coerceFloatCols_mem _ _ i name hmem (by decide),
      getCell_guardMap_other df "Joint" coerceInt i name hne, hc]
    rfl
  · intro hc
    unfold jointsNumeric coerceIntCol
    rw [getCell_coerceFloatCols_not_mem _ _ i "Joint" (by decide),
      getCell_guardMap_self df "Joint" coerceInt i, hc]
    rfl
  · intro hmem hc
    unfold baseReactionsNumeric
    rw [getCell_coerceFloatCols_mem _ _ i name hmem (by decide), hc]
    rfl

/-- C5 counterexample: in the Frame column the entry "3.7" parses as the
number 37/10, yet the coercion maps it to the integer 3 — not to its numeric
value — because of the final `astype(int)` truncation. -/
theorem C5_counterexample :
    getCell (framesNumeric ⟨["Frame"], [[Cell.str "3.7"]]⟩) 0 "Frame" =
      some (Cell.intv 3) ∧
    parseNum "3.7" = some ⟨37, 1⟩ ∧
    Dec.toRat ⟨37, 1⟩ ≠ ((3 : ℤ) : ℚ) := by
  refine ⟨by decide, by decide, ?_⟩
  unfold Dec.toRat
  norm_num

/-- Data frame with a Frame column and a P column, one row. -/
def dfC5 : DataFrame := ⟨["Frame", "P"], [[Cell.str "2", Cell.str "abc"]]⟩

theorem C5_numeric_coercion_witness :
    ("P" ∈ (["P", "V2", "V3", "T", "M2", "M3"] : List String)) ∧
    getCell dfC5 0 "P" = some (Cell.str "abc") ∧
    getCell (framesNumeric dfC5) 0 "P" =
      some (Cell.fl ((Cell.toNumeric (Cell.str "abc")).getD ⟨0, 0⟩)) :=
  ⟨by decide, by decide,
   (C5_numeric_coercion dfC5 0 "P" (Cell.str "abc")).1 (by decide) (by decide)⟩
